import Mathlib

/-!
Shallow embedding of `src/app/ai4bharat/transliteration/xlit_server.py`
(the request-dispatch and caching layer of the IndicXlit HTTP server),
together with theorems settling the spec claims about it.

The transliteration engine (`xlit_src.XlitEngine`) and the redis client are
external collaborators: they are modelled as parameters (an `Engine` record of
functions, a `Store` state with explicit failure flags).  Exceptions raised by
Python code are modelled explicitly: an engine call or store call that raises
is an `exn`/failure constructor, and a handler from which an exception escapes
yields the `raised` outcome.
-/

namespace XlitServer

/-- `class XlitError(enum.Enum)` from xlit_server.py. -/
inductive XlitError where
  | lang_err
  | string_err
  | internal_err
  | unknown_err
  | loading_err
  deriving DecidableEq, Repr

/-- The fixed string payload of each `XlitError` enum member. -/
def XlitError.value : XlitError → String
  | .lang_err => "Unsupported langauge ID requested ;( Please check available languages."
  | .string_err => "String passed is incompatable ;("
  | .internal_err => "Internal crash ;("
  | .unknown_err => "Unknown Failure"
  | .loading_err => "Loading failed ;( Check if metadata/paths are correctly configured."

/-- Result of a call into the external engine: a returned value, a returned
`XlitError` enum value, or a raised Python exception. -/
inductive EngineAnswer (α : Type) where
  | ok : α → EngineAnswer α
  | err : XlitError → EngineAnswer α
  | exn : EngineAnswer α
  deriving DecidableEq, Repr

/-- External collaborator: one `XlitEngine` instance (en2indic or indic2en).
`translit_word` takes (word, lang_code, topk, transliterate_numerals);
`translit_sentence` takes (sentence, lang_code). -/
structure Engine where
  all_supported_langs : List String
  translit_word : String → String → Int → Bool → EngineAnswer (List String)
  translit_sentence : String → String → EngineAnswer String

/-- `MAX_SUGGESTIONS = 8` from xlit_server.py. -/
def MAX_SUGGESTIONS : Int := 8

/-- `DEFAULT_NUM_SUGGESTIONS = 5` from xlit_server.py. -/
def DEFAULT_NUM_SUGGESTIONS : Int := 5

/-- One hexadecimal digit, lowercase. -/
def hexDigit (n : Nat) : Char :=
  if n < 10 then Char.ofNat (48 + n) else Char.ofNat (87 + n)

/-- Four-digit lowercase hexadecimal rendering of `n % 65536`,
as in Python json's `\uXXXX` escapes. -/
def toHex4 (n : Nat) : String :=
  String.mk [hexDigit (n / 4096 % 16), hexDigit (n / 256 % 16),
             hexDigit (n / 16 % 16), hexDigit (n % 16)]

/-- Escaping of one character as done by Python `json.dumps` with its default
`ensure_ascii=True`: printable ASCII passes through, `"` and `\` and the
common control characters get two-character escapes, everything else becomes
`\uXXXX` (with a surrogate pair above U+FFFF). -/
def jsonEscapeChar (c : Char) : String :=
  let n := c.toNat
  if n = 34 then "\\\""
  else if n = 92 then "\\\\"
  else if n = 8 then "\\b"
  else if n = 9 then "\\t"
  else if n = 10 then "\\n"
  else if n = 12 then "\\f"
  else if n = 13 then "\\r"
  else if n < 32 then "\\u" ++ toHex4 n
  else if n < 127 then String.mk [c]
  else if n < 65536 then "\\u" ++ toHex4 n
  else
    "\\u" ++ toHex4 (55296 + (n - 65536) / 1024) ++ "\\u" ++ toHex4 (56320 + (n - 65536) % 1024)

/-- Python `json.dumps` of a single string (quotes plus escaped characters). -/
def jsonString (s : String) : String :=
  "\"" ++ String.join (s.data.map jsonEscapeChar) ++ "\""

/-- The redis cache key used by `ulca_api`:
`json.dumps([source, sourceLanguage, targetLanguage])`, which with Python's
default separators is the bracketed, comma-space-separated list of the three
JSON-escaped strings. -/
def cacheKey (source sourceLang targetLang : String) : String :=
  "[" ++ jsonString source ++ ", " ++ jsonString sourceLang ++ ", "
      ++ jsonString targetLang ++ "]"

/-- Python `repr` of a simple string (single quotes). -/
def pyRepr (s : String) : String := "\x27" ++ s ++ "\x27"

/-- Python `str` of a set of strings, in the set's iteration order
(modelled as the list order). -/
def pyStrSet : List String → String
  | [] => "set()"
  | ls => "\x7b" ++ String.intercalate ", " (ls.map pyRepr) ++ "\x7d"

/-- The error message built by `xlit_api`/`reverse_xlit_api` for an
unsupported language code. -/
def langErrMsg (langs : List String) : String :=
  "Invalid scheme identifier. Supported languages are: " ++ pyStrSet langs

/-- The response dict of `xlit_api`/`reverse_xlit_api` (the `at` timestamp
field is omitted from the model).  `result = none` models the initial
`""` value that is left in place on error. -/
structure ApiResponse where
  success : Bool
  error : String
  input : String
  result : Option (List String)
  deriving DecidableEq, Repr

/-- A `translit_word` engine invocation as dispatched by a handler:
(word, lang_code, topk, transliterate_numerals). -/
abbrev WordCall := String × String × Int × Bool

/-- `xlit_api(lang_code, eng_word)` with query parameters
`transliterate_numerals` and `num_suggestions`, returning the response
together with the list of engine invocations the handler performed. -/
def xlit_api (engine : Engine) (lang_code eng_word : String)
    (transliterate_numerals : Bool) (num_suggestions : Int) :
    ApiResponse × List WordCall :=
  let input := eng_word.trim
  if engine.all_supported_langs.contains lang_code then
    let call : WordCall := (eng_word.take 70, lang_code, num_suggestions, transliterate_numerals)
    match engine.translit_word (eng_word.take 70) lang_code num_suggestions
        transliterate_numerals with
    | .ok ws =>
      ({ success := true, error := "", input := input, result := some ws }, [call])
    | .err e =>
      ({ success := false, error := e.value, input := input, result := none }, [call])
    | .exn =>
      ({ success := false, error := XlitError.internal_err.value, input := input,
         result := none }, [call])
  else
    ({ success := false, error := langErrMsg engine.all_supported_langs,
       input := input, result := none }, [])

/-- `reverse_xlit_api(lang_code, word)` with query parameter
`num_suggestions`; `translit_word` is called without the numerals flag
(Python default `False`). -/
def reverse_xlit_api (engine : Engine) (lang_code word : String)
    (num_suggestions : Int) : ApiResponse × List WordCall :=
  let input := word.trim
  if engine.all_supported_langs.contains lang_code then
    let call : WordCall := (word.take 70, lang_code, num_suggestions, false)
    match engine.translit_word (word.take 70) lang_code num_suggestions false with
    | .ok ws =>
      ({ success := true, error := "", input := input, result := some ws }, [call])
    | .err e =>
      ({ success := false, error := e.value, input := input, result := none }, [call])
    | .exn =>
      ({ success := false, error := XlitError.internal_err.value, input := input,
         result := none }, [call])
  else
    ({ success := false, error := langErrMsg engine.all_supported_langs,
       input := input, result := none }, [])

/-- The external redis store `r`.  `getFails`/`setFails` model the backend
raising (e.g. `ConnectionError`) on `r.get`/`r.set`; `entries` is the store
content, newest binding first. -/
structure Store where
  getFails : Bool
  setFails : Bool
  entries : List (String × String)
  deriving DecidableEq, Repr

/-- `config.language` of a ULCA request. -/
structure LanguagePair where
  sourceLanguage : String
  targetLanguage : String
  deriving DecidableEq, Repr

/-- `config` of a ULCA request; `none` models an absent optional field. -/
structure UlcaConfig where
  language : LanguagePair
  isSentence : Option Bool
  numSuggestions : Option Int
  deriving DecidableEq, Repr

/-- One element of the ULCA `input` list. -/
structure BatchItem where
  source : String
  deriving DecidableEq, Repr

/-- One element of the ULCA `output` list (the mutated input item). -/
structure ItemOut where
  source : String
  target : List String
  deriving DecidableEq, Repr

/-- A ULCA request body; `none` models a missing `input`/`config` field. -/
structure UlcaRequest where
  input : Option (List BatchItem)
  config : Option UlcaConfig
  deriving DecidableEq, Repr

/-- Everything the `ulca_api` handler did against the outside world, in
order: redis `get` keys, redis `set` key/value pairs, `translit_word`
invocations, `translit_sentence` invocations. -/
structure Trace where
  gets : List String
  sets : List (String × String)
  wordCalls : List WordCall
  sentCalls : List (String × String)
  deriving DecidableEq, Repr

/-- The empty trace. -/
def Trace.empty : Trace := ⟨[], [], [], []⟩

/-- Processing of one item of the `ulca_api` loop body.  `none` in the first
component means a Python exception escaped while processing this item
(store outage on `get`/`set`, engine exception, engine returning an
`XlitError` or an empty candidate list — each of which makes
`item["target"][0]` or the assignment raise). -/
def processItem (engine : Engine) (sourceLang targetLang lang_code : String)
    (is_sentence : Bool) (num_suggestions : Int)
    (item : BatchItem) (store : Store) (tr : Trace) :
    Option ItemOut × Store × Trace :=
  let key := cacheKey item.source sourceLang targetLang
  let tr1 := { tr with gets := tr.gets ++ [key] }
  if store.getFails then (none, store, tr1)
  else
    match store.entries.lookup key with
    | some v => (some ⟨item.source, [v]⟩, store, tr1)
    | none =>
      if is_sentence then
        let tr2 := { tr1 with sentCalls := tr1.sentCalls ++ [(item.source, lang_code)] }
        match engine.translit_sentence item.source lang_code with
        | .ok s =>
          let tr3 := { tr2 with sets := tr2.sets ++ [(key, s)] }
          if store.setFails then (none, store, tr3)
          else (some ⟨item.source, [s]⟩,
                { store with entries := (key, s) :: store.entries }, tr3)
        | _ => (none, store, tr2)
      else
        let src2 := item.source.take 32
        let tr2 := { tr1 with
          wordCalls := tr1.wordCalls ++ [(src2, lang_code, num_suggestions, false)] }
        match engine.translit_word src2 lang_code num_suggestions false with
        | .ok (t0 :: ts) =>
          let tr3 := { tr2 with sets := tr2.sets ++ [(key, t0)] }
          if store.setFails then (none, store, tr3)
          else (some ⟨src2, t0 :: ts⟩,
                { store with entries := (key, t0) :: store.entries }, tr3)
        | _ => (none, store, tr2)

/-- Result of the `for item in data["input"]` loop: either every item was
processed (`ok`, outputs in input order) or an exception escaped. -/
inductive LoopResult where
  | ok : List ItemOut → LoopResult
  | raised : LoopResult
  deriving DecidableEq, Repr

/-- The `for item in data["input"]` loop of `ulca_api`, threading the store
state and the trace; an exception while processing one item aborts the loop. -/
def ulcaLoop (engine : Engine) (sourceLang targetLang lang_code : String)
    (is_sentence : Bool) (num_suggestions : Int) :
    List BatchItem → Store → Trace → LoopResult × Store × Trace
  | [], store, tr => (.ok [], store, tr)
  | item :: rest, store, tr =>
    match processItem engine sourceLang targetLang lang_code is_sentence
        num_suggestions item store tr with
    | (none, store2, tr2) => (.raised, store2, tr2)
    | (some out, store2, tr2) =>
      match ulcaLoop engine sourceLang targetLang lang_code is_sentence
          num_suggestions rest store2 tr2 with
      | (.ok outs, store3, tr3) => (.ok (out :: outs), store3, tr3)
      | (.raised, store3, tr3) => (.raised, store3, tr3)

/-- Language-pair validation of `ulca_api`: Roman→Indic needs
`sourceLanguage == "en"` and a supported target; Indic→Roman needs a
supported source and `targetLanguage == "en"`. -/
def ulcaValidPair (en2indic indic2en : Engine) (sourceLang targetLang : String) : Bool :=
  (sourceLang == "en" && en2indic.all_supported_langs.contains targetLang)
  || (indic2en.all_supported_langs.contains sourceLang && targetLang == "en")

/-- The effective number of suggestions of a ULCA request:
`1` when `isSentence` holds, else `numSuggestions` defaulting to 5. -/
def ulcaNumSuggestions (cfg : UlcaConfig) : Int :=
  if cfg.isSentence.getD false then 1 else cfg.numSuggestions.getD 5

/-- Outcome of the `ulca_api` handler: a 200 response with the output list, a
structured 400/501 error response, or an exception escaping the handler. -/
inductive UlcaOutcome where
  | ok : List ItemOut → UlcaOutcome
  | clientError : Nat → String → UlcaOutcome
  | raised : UlcaOutcome
  deriving DecidableEq, Repr

/-- `ulca_api()` (`POST /transliterate`): field presence check, language-pair
validation, direction/engine selection, then the per-item loop.  Returns the
outcome together with the final store state and the trace of external calls. -/
def ulca_api (en2indic indic2en : Engine) (store : Store) (req : UlcaRequest) :
    UlcaOutcome × Store × Trace :=
  match req.input, req.config with
  | some input, some cfg =>
    let sourceLang := cfg.language.sourceLanguage
    let targetLang := cfg.language.targetLanguage
    if ulcaValidPair en2indic indic2en sourceLang targetLang then
      let is_sentence := cfg.isSentence.getD false
      let num_suggestions := ulcaNumSuggestions cfg
      let pick := if targetLang == "en" then (indic2en, sourceLang) else (en2indic, targetLang)
      match ulcaLoop pick.1 sourceLang targetLang pick.2 is_sentence num_suggestions
          input store Trace.empty with
      | (.ok outs, store2, tr2) => (.ok outs, store2, tr2)
      | (.raised, store2, tr2) => (.raised, store2, tr2)
    else
      (.clientError 501 "The mentioned language-pair is not supported yet.",
       store, Trace.empty)
  | _, _ =>
    (.clientError 400 "Ensure `input` and `config` fields missing.",
     store, Trace.empty)

/-- The rate-limit rule attached to `xlit_api` by its decorator. -/
def xlit_api_rate_limit : Option String := some "5/second"

/-- The rate-limit rule attached to `reverse_xlit_api` by its decorator. -/
def reverse_xlit_api_rate_limit : Option String := some "5/second"

/-- `ulca_api` has no rate-limit decorator. -/
def ulca_api_rate_limit : Option String := none

/-- The numeric limit in the `"5/second"` rule. -/
def rateLimitPerSecond : Nat := 5

/-- Modelled from the spec: the fixed-window rate limiter state of §4.4
(flask_limiter with in-memory storage is external to src/): a counter per
(client identity, window) bucket, newest binding first. -/
structure RateLimiterState where
  buckets : List ((String × Nat) × Nat)
  deriving DecidableEq, Repr

/-- Modelled from the spec: `allow(clientIdentity)` of the fixed-window rate
limiter — at most `limit` requests per client identity per window; an allowed
request increments the client's counter for the current window. -/
def rateLimitAllow (limit : Nat) (st : RateLimiterState)
    (clientIdentity : String) (window : Nat) : Bool × RateLimiterState :=
  let count := (st.buckets.lookup (clientIdentity, window)).getD 0
  if count < limit then
    (true, ⟨((clientIdentity, window), count + 1) :: st.buckets⟩)
  else
    (false, st)

/-- A sequence of rate-limited requests, each tagged with the client identity
and the second (window) in which it arrives; returns the per-request
allow/reject decisions in order. -/
def runRequests (limit : Nat) (st : RateLimiterState) :
    List (String × Nat) → List Bool × RateLimiterState
  | [] => ([], st)
  | (id, w) :: rest =>
    let step := rateLimitAllow limit st id w
    let next := runRequests limit step.2 rest
    (step.1 :: next.1, next.2)

set_option maxRecDepth 40000

/-- A well-behaved demo engine used to instantiate theorems at concrete
inputs. -/
def demoEngine : Engine where
  all_supported_langs := ["hi", "ta"]
  translit_word := fun s _ _ _ => .ok [s ++ "1", s ++ "2"]
  translit_sentence := fun s _ => .ok (s ++ "S")

/-- A demo engine that raises exactly on the word "b". -/
def demoEngineFailB : Engine where
  all_supported_langs := ["hi", "ta"]
  translit_word := fun s _ _ _ => if s == "b" then .exn else .ok [s ++ "1"]
  translit_sentence := fun s _ => .ok (s ++ "S")

/-- A demo engine that raises on every call (an unavailable engine). -/
def demoEngineExn : Engine where
  all_supported_langs := ["hi", "ta"]
  translit_word := fun _ _ _ _ => .exn
  translit_sentence := fun _ _ => .exn

/-- An empty, healthy store. -/
def emptyStore : Store := ⟨false, false, []⟩

/-- A store whose backend raises on `get`. -/
def getFailStore : Store := ⟨true, false, []⟩

/-- A store whose backend raises on `set` only. -/
def setFailStore : Store := ⟨false, true, []⟩

/-- A healthy store already holding the ("amma", "en", "hi") triple. -/
def cachedStore : Store := ⟨false, false, [(cacheKey "amma" "en" "hi", "X")]⟩

/-- A word-mode en→hi batch config with all optional fields absent. -/
def cfgWordHi : UlcaConfig := ⟨⟨"en", "hi"⟩, none, none⟩

/-- A sentence-mode en→hi batch config. -/
def cfgSentHi : UlcaConfig := ⟨⟨"en", "hi"⟩, some true, none⟩

/-- A word-mode en→hi batch config requesting 3 suggestions. -/
def cfgWord3Hi : UlcaConfig := ⟨⟨"en", "hi"⟩, none, some 3⟩

/-- A 40-character source, longer than the 32-character batch truncation. -/
def longSrc : String := String.mk (List.replicate 40 'a')

/-! ## Helper lemmas about the per-item batch processing -/

theorem processItem_gets (E : Engine) (sL tL lc : String) (b : Bool) (n : Int)
    (item : BatchItem) (store : Store) (tr : Trace) :
    (processItem E sL tL lc b n item store tr).2.2.gets
      = tr.gets ++ [cacheKey item.source sL tL] := by
  unfold processItem
  dsimp only
  repeat' split
  all_goals rfl

theorem processItem_getFails (E : Engine) (sL tL lc : String) (b : Bool) (n : Int)
    (item : BatchItem) (store : Store) (tr : Trace) (h : store.getFails = true) :
    processItem E sL tL lc b n item store tr
      = (none, store, ⟨tr.gets ++ [cacheKey item.source sL tL],
                      tr.sets, tr.wordCalls, tr.sentCalls⟩) := by
  simp [processItem, h]

theorem processItem_hit (E : Engine) (sL tL lc : String) (b : Bool) (n : Int)
    (item : BatchItem) (store : Store) (tr : Trace) (v : String)
    (h : store.getFails = false)
    (hv : store.entries.lookup (cacheKey item.source sL tL) = some v) :
    processItem E sL tL lc b n item store tr
      = (some ⟨item.source, [v]⟩, store,
         ⟨tr.gets ++ [cacheKey item.source sL tL], tr.sets, tr.wordCalls,
          tr.sentCalls⟩) := by
  simp [processItem, h, hv]

theorem processItem_word_ok (E : Engine) (sL tL lc : String) (b : Bool) (n : Int)
    (item : BatchItem) (store : Store) (tr : Trace) (t0 : String) (ts : List String)
    (hb : b = false)
    (h : store.getFails = false)
    (hmiss : store.entries.lookup (cacheKey item.source sL tL) = none)
    (hword : E.translit_word (item.source.take 32) lc n false = .ok (t0 :: ts))
    (hset : store.setFails = false) :
    processItem E sL tL lc b n item store tr
      = (some ⟨item.source.take 32, t0 :: ts⟩,
         ⟨store.getFails, store.setFails,
          (cacheKey item.source sL tL, t0) :: store.entries⟩,
         ⟨tr.gets ++ [cacheKey item.source sL tL],
          tr.sets ++ [(cacheKey item.source sL tL, t0)],
          tr.wordCalls ++ [(item.source.take 32, lc, n, false)],
          tr.sentCalls⟩) := by
  subst hb
  simp [processItem, h, hmiss, hword, hset]

theorem processItem_sent_ok (E : Engine) (sL tL lc : String) (b : Bool) (n : Int)
    (item : BatchItem) (store : Store) (tr : Trace) (s : String)
    (hb : b = true)
    (h : store.getFails = false)
    (hmiss : store.entries.lookup (cacheKey item.source sL tL) = none)
    (hsent : E.translit_sentence item.source lc = .ok s)
    (hset : store.setFails = false) :
    processItem E sL tL lc b n item store tr
      = (some ⟨item.source, [s]⟩,
         ⟨store.getFails, store.setFails,
          (cacheKey item.source sL tL, s) :: store.entries⟩,
         ⟨tr.gets ++ [cacheKey item.source sL tL],
          tr.sets ++ [(cacheKey item.source sL tL, s)],
          tr.wordCalls,
          tr.sentCalls ++ [(item.source, lc)]⟩) := by
  subst hb
  simp [processItem, h, hmiss, hsent, hset]

theorem processItem_word_exn (E : Engine) (sL tL lc : String) (b : Bool) (n : Int)
    (item : BatchItem) (store : Store) (tr : Trace)
    (hb : b = false)
    (h : store.getFails = false)
    (hmiss : store.entries.lookup (cacheKey item.source sL tL) = none)
    (hword : E.translit_word (item.source.take 32) lc n false = .exn) :
    processItem E sL tL lc b n item store tr
      = (none, store,
         ⟨tr.gets ++ [cacheKey item.source sL tL], tr.sets,
          tr.wordCalls ++ [(item.source.take 32, lc, n, false)],
          tr.sentCalls⟩) := by
  subst hb
  simp [processItem, h, hmiss, hword]

theorem processItem_word_setFails (E : Engine) (sL tL lc : String) (b : Bool) (n : Int)
    (item : BatchItem) (store : Store) (tr : Trace) (t0 : String) (ts : List String)
    (hb : b = false)
    (h : store.getFails = false)
    (hmiss : store.entries.lookup (cacheKey item.source sL tL) = none)
    (hword : E.translit_word (item.source.take 32) lc n false = .ok (t0 :: ts))
    (hset : store.setFails = true) :
    processItem E sL tL lc b n item store tr
      = (none, store,
         ⟨tr.gets ++ [cacheKey item.source sL tL],
          tr.sets ++ [(cacheKey item.source sL tL, t0)],
          tr.wordCalls ++ [(item.source.take 32, lc, n, false)],
          tr.sentCalls⟩) := by
  subst hb
  simp [processItem, h, hmiss, hword, hset]

theorem processItem_word_wordCalls (E : Engine) (sL tL lc : String) (b : Bool) (n : Int)
    (item : BatchItem) (store : Store) (tr : Trace)
    (hb : b = false)
    (hget : store.getFails = false)
    (hmiss : store.entries.lookup (cacheKey item.source sL tL) = none) :
    (processItem E sL tL lc b n item store tr).2.2.wordCalls
      = tr.wordCalls ++ [(item.source.take 32, lc, n, false)] := by
  subst hb
  simp only [processItem, hget, hmiss, Bool.false_eq_true, if_false]
  repeat' split
  all_goals rfl

theorem processItem_sent_sentCalls (E : Engine) (sL tL lc : String) (b : Bool) (n : Int)
    (item : BatchItem) (store : Store) (tr : Trace)
    (hb : b = true)
    (hget : store.getFails = false)
    (hmiss : store.entries.lookup (cacheKey item.source sL tL) = none) :
    (processItem E sL tL lc b n item store tr).2.2.sentCalls
      = tr.sentCalls ++ [(item.source, lc)] := by
  subst hb
  simp only [processItem, hget, hmiss, Bool.false_eq_true, if_false,
    eq_self_iff_true, if_true]
  repeat' split
  all_goals rfl

/-! ## Helper lemmas about the batch loop and handler -/

theorem ulcaLoop_singleton_some (E : Engine) (sL tL lc : String) (b : Bool) (n : Int)
    (item : BatchItem) (store st2 : Store) (tr tr2 : Trace) (out : ItemOut)
    (hp : processItem E sL tL lc b n item store tr = (some out, st2, tr2)) :
    ulcaLoop E sL tL lc b n [item] store tr = (.ok [out], st2, tr2) := by
  simp [ulcaLoop, hp]

theorem ulcaLoop_cons_none (E : Engine) (sL tL lc : String) (b : Bool) (n : Int)
    (item : BatchItem) (rest : List BatchItem) (store st2 : Store) (tr tr2 : Trace)
    (hp : processItem E sL tL lc b n item store tr = (none, st2, tr2)) :
    ulcaLoop E sL tL lc b n (item :: rest) store tr = (.raised, st2, tr2) := by
  simp [ulcaLoop, hp]

theorem ulcaLoop_raised_append (E : Engine) (sL tL lc : String) (b : Bool) (n : Int)
    (items1 items2 : List BatchItem) (store : Store) (tr : Trace)
    (h : (ulcaLoop E sL tL lc b n items1 store tr).1 = .raised) :
    ulcaLoop E sL tL lc b n (items1 ++ items2) store tr
      = ulcaLoop E sL tL lc b n items1 store tr := by
  induction items1 generalizing store tr with
  | nil => simp [ulcaLoop] at h
  | cons item rest ih =>
    simp only [List.cons_append, ulcaLoop] at h ⊢
    revert h
    rcases processItem E sL tL lc b n item store tr with ⟨_ | out, st2, tr2⟩ <;> intro h
    · rfl
    · dsimp only at h ⊢
      revert h
      rcases hr : ulcaLoop E sL tL lc b n rest st2 tr2 with ⟨lr, st3, tr3⟩
      intro h
      cases lr with
      | ok outs => simp at h
      | raised =>
        simp only [List.append_eq]
        rw [ih st2 tr2 (by rw [hr]), hr]

theorem ulca_api_toIndic_ok (eA eB : Engine) (store s2 : Store) (input : List BatchItem)
    (cfg : UlcaConfig) (outs : List ItemOut) (t2 : Trace)
    (hv : ulcaValidPair eA eB cfg.language.sourceLanguage cfg.language.targetLanguage = true)
    (hten : (cfg.language.targetLanguage == "en") = false)
    (hl : ulcaLoop eA cfg.language.sourceLanguage cfg.language.targetLanguage
            cfg.language.targetLanguage (cfg.isSentence.getD false) (ulcaNumSuggestions cfg)
            input store Trace.empty = (.ok outs, s2, t2)) :
    ulca_api eA eB store ⟨some input, some cfg⟩ = (.ok outs, s2, t2) := by
  simp [ulca_api, hv, hten, hl]

theorem ulca_api_toIndic_raised (eA eB : Engine) (store s2 : Store) (input : List BatchItem)
    (cfg : UlcaConfig) (t2 : Trace)
    (hv : ulcaValidPair eA eB cfg.language.sourceLanguage cfg.language.targetLanguage = true)
    (hten : (cfg.language.targetLanguage == "en") = false)
    (hl : ulcaLoop eA cfg.language.sourceLanguage cfg.language.targetLanguage
            cfg.language.targetLanguage (cfg.isSentence.getD false) (ulcaNumSuggestions cfg)
            input store Trace.empty = (.raised, s2, t2)) :
    ulca_api eA eB store ⟨some input, some cfg⟩ = (.raised, s2, t2) := by
  simp [ulca_api, hv, hten, hl]

theorem ulca_api_toEn_ok (eA eB : Engine) (store s2 : Store) (input : List BatchItem)
    (cfg : UlcaConfig) (outs : List ItemOut) (t2 : Trace)
    (hv : ulcaValidPair eA eB cfg.language.sourceLanguage cfg.language.targetLanguage = true)
    (hten : (cfg.language.targetLanguage == "en") = true)
    (hl : ulcaLoop eB cfg.language.sourceLanguage cfg.language.targetLanguage
            cfg.language.sourceLanguage (cfg.isSentence.getD false) (ulcaNumSuggestions cfg)
            input store Trace.empty = (.ok outs, s2, t2)) :
    ulca_api eA eB store ⟨some input, some cfg⟩ = (.ok outs, s2, t2) := by
  simp [ulca_api, hv, hten, hl]

theorem ulca_api_toEn_raised (eA eB : Engine) (store s2 : Store) (input : List BatchItem)
    (cfg : UlcaConfig) (t2 : Trace)
    (hv : ulcaValidPair eA eB cfg.language.sourceLanguage cfg.language.targetLanguage = true)
    (hten : (cfg.language.targetLanguage == "en") = true)
    (hl : ulcaLoop eB cfg.language.sourceLanguage cfg.language.targetLanguage
            cfg.language.sourceLanguage (cfg.isSentence.getD false) (ulcaNumSuggestions cfg)
            input store Trace.empty = (.raised, s2, t2)) :
    ulca_api eA eB store ⟨some input, some cfg⟩ = (.raised, s2, t2) := by
  simp [ulca_api, hv, hten, hl]

/-! ## Claim theorems -/

/-- C1: in the batch endpoint, an engine failure on one item does NOT leave
the other items intact.  On the batch a/b/c where the engine raises only on
"b", the handler raises, item "c" is never dispatched, and results are
returned for neither of the non-failing items "a" and "c" — refuting the
claimed per-item independence. -/
theorem claim1_counterexample :
    (ulca_api demoEngineFailB demoEngineFailB emptyStore
        ⟨some [⟨"a"⟩, ⟨"b"⟩, ⟨"c"⟩], some cfgWordHi⟩).1 = .raised
    ∧ (ulca_api demoEngineFailB demoEngineFailB emptyStore
        ⟨some [⟨"a"⟩, ⟨"b"⟩, ⟨"c"⟩], some cfgWordHi⟩).2.2.wordCalls
      = [("a", "hi", 5, false), ("b", "hi", 5, false)] := by
  constructor
  · decide
  · decide

/-- C1 (amended): batch item outcomes are NOT independent: if processing some
prefix of the batch raises, the remaining items are never processed (appending
them leaves the loop result unchanged) and the whole `ulca_api` request fails
with an escaped exception, so the response contains results for no item. -/
theorem claim1_batch_failure_aborts_rest (eA eB : Engine) (store : Store)
    (cfg : UlcaConfig) (items1 items2 : List BatchItem)
    (hv : ulcaValidPair eA eB cfg.language.sourceLanguage cfg.language.targetLanguage = true)
    (hten : (cfg.language.targetLanguage == "en") = false)
    (h : (ulcaLoop eA cfg.language.sourceLanguage cfg.language.targetLanguage
            cfg.language.targetLanguage (cfg.isSentence.getD false) (ulcaNumSuggestions cfg)
            items1 store Trace.empty).1 = .raised) :
    ulcaLoop eA cfg.language.sourceLanguage cfg.language.targetLanguage
        cfg.language.targetLanguage (cfg.isSentence.getD false) (ulcaNumSuggestions cfg)
        (items1 ++ items2) store Trace.empty
      = ulcaLoop eA cfg.language.sourceLanguage cfg.language.targetLanguage
          cfg.language.targetLanguage (cfg.isSentence.getD false) (ulcaNumSuggestions cfg)
          items1 store Trace.empty
    ∧ (ulca_api eA eB store ⟨some (items1 ++ items2), some cfg⟩).1 = .raised := by
  have happ := ulcaLoop_raised_append eA cfg.language.sourceLanguage
    cfg.language.targetLanguage cfg.language.targetLanguage (cfg.isSentence.getD false)
    (ulcaNumSuggestions cfg) items1 items2 store Trace.empty h
  refine ⟨happ, ?_⟩
  rcases hr : ulcaLoop eA cfg.language.sourceLanguage cfg.language.targetLanguage
      cfg.language.targetLanguage (cfg.isSentence.getD false) (ulcaNumSuggestions cfg)
      items1 store Trace.empty with ⟨lr, st2, tr2⟩
  cases lr with
  | ok outs => rw [hr] at h; simp at h
  | raised =>
    rw [ulca_api_toIndic_raised eA eB store st2 (items1 ++ items2) cfg tr2 hv hten
      (by rw [happ, hr])]

/-- C1 witness. -/
theorem claim1_witness :
    (ulcaValidPair demoEngineFailB demoEngineFailB
        cfgWordHi.language.sourceLanguage cfgWordHi.language.targetLanguage = true)
    ∧ ((cfgWordHi.language.targetLanguage == "en") = false)
    ∧ ((ulcaLoop demoEngineFailB cfgWordHi.language.sourceLanguage
          cfgWordHi.language.targetLanguage cfgWordHi.language.targetLanguage
          (cfgWordHi.isSentence.getD false) (ulcaNumSuggestions cfgWordHi)
          [⟨"b"⟩] emptyStore Trace.empty).1 = .raised)
    ∧ (ulcaLoop demoEngineFailB cfgWordHi.language.sourceLanguage
          cfgWordHi.language.targetLanguage cfgWordHi.language.targetLanguage
          (cfgWordHi.isSentence.getD false) (ulcaNumSuggestions cfgWordHi)
          ([⟨"b"⟩] ++ [⟨"c"⟩]) emptyStore Trace.empty
        = ulcaLoop demoEngineFailB cfgWordHi.language.sourceLanguage
            cfgWordHi.language.targetLanguage cfgWordHi.language.targetLanguage
            (cfgWordHi.isSentence.getD false) (ulcaNumSuggestions cfgWordHi)
            [⟨"b"⟩] emptyStore Trace.empty)
    ∧ ((ulca_api demoEngineFailB demoEngineFailB emptyStore
          ⟨some ([⟨"b"⟩] ++ [⟨"c"⟩]), some cfgWordHi⟩).1 = .raised) := by
  refine ⟨by decide, by decide, by decide, ?_⟩
  exact claim1_batch_failure_aborts_rest demoEngineFailB demoEngineFailB emptyStore
    cfgWordHi [⟨"b"⟩] [⟨"c"⟩] (by decide) (by decide) (by decide)

/-- C2: a cache-backend failure is NOT treated as a cache miss / no-op: with a
store whose `get` raises, a valid one-item batch request fails with an escaped
exception, and likewise when only `set` raises (after a successful engine
call) — refuting the claimed fail-open behaviour. -/
theorem claim2_counterexample :
    (ulca_api demoEngine demoEngine getFailStore ⟨some [⟨"a"⟩], some cfgWordHi⟩).1
      = .raised
    ∧ (ulca_api demoEngine demoEngine setFailStore ⟨some [⟨"a"⟩], some cfgWordHi⟩).1
      = .raised := by
  constructor
  · decide
  · decide

/-- C2 (amended): a failing cache backend fails the surrounding request: if
`get` raises, a valid batch request raises out of the handler; if `set` raises
after a successful engine call on a cache miss, processing of that item raises
as well.  There is no fail-open or best-effort handling. -/
theorem claim2_store_failure_raises (eA eB E2 : Engine) (store store2 : Store)
    (item item2 : BatchItem) (rest : List BatchItem) (cfg : UlcaConfig)
    (sL tL lcode : String) (k : Int) (tr : Trace) (t0 : String) (ts : List String)
    (hv : ulcaValidPair eA eB cfg.language.sourceLanguage cfg.language.targetLanguage = true)
    (hget : store.getFails = true)
    (hget2 : store2.getFails = false) (hset2 : store2.setFails = true)
    (hmiss : store2.entries.lookup (cacheKey item2.source sL tL) = none)
    (hword : E2.translit_word (item2.source.take 32) lcode k false = .ok (t0 :: ts)) :
    (ulca_api eA eB store ⟨some (item :: rest), some cfg⟩).1 = .raised
    ∧ (processItem E2 sL tL lcode false k item2 store2 tr).1 = none := by
  constructor
  · by_cases hten : (cfg.language.targetLanguage == "en") = true
    · rw [ulca_api_toEn_raised eA eB store store (item :: rest) cfg _ hv hten
        (ulcaLoop_cons_none eB _ _ _ _ _ item rest store store Trace.empty _
          (processItem_getFails eB _ _ _ _ _ item store Trace.empty hget))]
    · rw [ulca_api_toIndic_raised eA eB store store (item :: rest) cfg _ hv
        (by simpa using hten)
        (ulcaLoop_cons_none eA _ _ _ _ _ item rest store store Trace.empty _
          (processItem_getFails eA _ _ _ _ _ item store Trace.empty hget))]
  · rw [processItem_word_setFails E2 sL tL lcode false k item2 store2 tr t0 ts rfl
      hget2 hmiss hword hset2]

/-- C2 witness. -/
theorem claim2_witness :
    (ulcaValidPair demoEngine demoEngine
        cfgWordHi.language.sourceLanguage cfgWordHi.language.targetLanguage = true)
    ∧ (getFailStore.getFails = true)
    ∧ (setFailStore.getFails = false)
    ∧ (setFailStore.setFails = true)
    ∧ (setFailStore.entries.lookup (cacheKey "a" "en" "hi") = none)
    ∧ (demoEngine.translit_word ((String.mk ['a']).take 32) "hi" 5 false
        = .ok ["a1", "a2"])
    ∧ ((ulca_api demoEngine demoEngine getFailStore
          ⟨some [⟨"a"⟩], some cfgWordHi⟩).1 = .raised)
    ∧ ((processItem demoEngine "en" "hi" "hi" false 5 ⟨"a"⟩ setFailStore
          Trace.empty).1 = none) := by
  refine ⟨by decide, by decide, by decide, by decide, by decide, by decide, ?_, ?_⟩
  · exact (claim2_store_failure_raises demoEngine demoEngine demoEngine getFailStore
      setFailStore ⟨"a"⟩ ⟨"a"⟩ [] cfgWordHi "en" "hi" "hi" 5 Trace.empty "a1" ["a2"]
      (by decide) (by decide) (by decide) (by decide) (by decide) (by decide)).1
  · exact (claim2_store_failure_raises demoEngine demoEngine demoEngine getFailStore
      setFailStore ⟨"a"⟩ ⟨"a"⟩ [] cfgWordHi "en" "hi" "hi" 5 Trace.empty "a1" ["a2"]
      (by decide) (by decide) (by decide) (by decide) (by decide) (by decide)).2

/-- C3: in the batch endpoint the cache key is computed from the UNTRUNCATED
item source (here 40 characters long), that key differs from the key of the
32-character truncation, and in sentence mode the engine receives the
untruncated source — refuting "truncated to 32 characters before both
cache-key computation and engine dispatch". -/
theorem claim3_counterexample :
    (ulca_api demoEngine demoEngine emptyStore
        ⟨some [⟨longSrc⟩], some cfgWordHi⟩).2.2.gets
      = [cacheKey longSrc "en" "hi"]
    ∧ cacheKey longSrc "en" "hi" ≠ cacheKey (longSrc.take 32) "en" "hi"
    ∧ (ulca_api demoEngine demoEngine emptyStore
        ⟨some [⟨longSrc⟩], some cfgSentHi⟩).2.2.sentCalls
      = [(longSrc, "hi")] := by
  refine ⟨by decide, by decide, by decide⟩

/-- C3 (amended): the single-word and reverse endpoints pass only the first 70
characters of the word to the engine; in the batch endpoint a word-mode
cache-miss item is truncated to 32 characters before engine dispatch only,
while the cache key is computed from the untruncated source (in either mode),
and a sentence-mode item is passed to the engine untruncated. -/
theorem claim3_truncation (e1 e2 E : Engine) (lc lc2 w w2 lcode sL tL : String)
    (tn b : Bool) (n n2 k : Int) (item : BatchItem) (store : Store) (tr : Trace)
    (h1 : e1.all_supported_langs.contains lc = true)
    (h2 : e2.all_supported_langs.contains lc2 = true)
    (hget : store.getFails = false)
    (hmiss : store.entries.lookup (cacheKey item.source sL tL) = none) :
    (xlit_api e1 lc w tn n).2 = [(w.take 70, lc, n, tn)]
    ∧ (reverse_xlit_api e2 lc2 w2 n2).2 = [(w2.take 70, lc2, n2, false)]
    ∧ (processItem E sL tL lcode false k item store tr).2.2.wordCalls
        = tr.wordCalls ++ [(item.source.take 32, lcode, k, false)]
    ∧ (processItem E sL tL lcode b k item store tr).2.2.gets
        = tr.gets ++ [cacheKey item.source sL tL]
    ∧ (processItem E sL tL lcode true k item store tr).2.2.sentCalls
        = tr.sentCalls ++ [(item.source, lcode)] := by
  have hm1 : lc ∈ e1.all_supported_langs := by simpa using h1
  have hm2 : lc2 ∈ e2.all_supported_langs := by simpa using h2
  refine ⟨?_, ?_,
    processItem_word_wordCalls E sL tL lcode false k item store tr rfl hget hmiss,
    processItem_gets E sL tL lcode b k item store tr,
    processItem_sent_sentCalls E sL tL lcode true k item store tr rfl hget hmiss⟩
  · cases hE : e1.translit_word (w.take 70) lc n tn <;> simp [xlit_api, hm1, hE]
  · cases hE : e2.translit_word (w2.take 70) lc2 n2 false <;>
      simp [reverse_xlit_api, hm2, hE]

/-- C3 witness. -/
theorem claim3_witness :
    (demoEngine.all_supported_langs.contains "hi" = true)
    ∧ (demoEngine.all_supported_langs.contains "ta" = true)
    ∧ (emptyStore.getFails = false)
    ∧ (emptyStore.entries.lookup (cacheKey longSrc "en" "hi") = none)
    ∧ ((xlit_api demoEngine "hi" longSrc false 5).2
        = [(longSrc.take 70, "hi", 5, false)]
      ∧ (reverse_xlit_api demoEngine "ta" longSrc 5).2
        = [(longSrc.take 70, "ta", 5, false)]
      ∧ (processItem demoEngine "en" "hi" "hi" false 5 ⟨longSrc⟩ emptyStore
          Trace.empty).2.2.wordCalls
        = Trace.empty.wordCalls ++ [(longSrc.take 32, "hi", 5, false)]
      ∧ (processItem demoEngine "en" "hi" "hi" false 5 ⟨longSrc⟩ emptyStore
          Trace.empty).2.2.gets
        = Trace.empty.gets ++ [cacheKey longSrc "en" "hi"]
      ∧ (processItem demoEngine "en" "hi" "hi" true 5 ⟨longSrc⟩ emptyStore
          Trace.empty).2.2.sentCalls
        = Trace.empty.sentCalls ++ [(longSrc, "hi")]) := by
  refine ⟨by decide, by decide, by decide, by decide, ?_⟩
  exact claim3_truncation demoEngine demoEngine demoEngine "hi" "ta" longSrc longSrc
    "hi" "en" "hi" false false 5 5 5 ⟨longSrc⟩ emptyStore Trace.empty
    (by decide) (by decide) (by decide) (by decide)

/-- C4: the requested `num_suggestions` is NOT clamped to `[1, MAX_SUGGESTIONS]`
before the engine is called: a request with `num_suggestions=100` dispatches
`topk = 100 > MAX_SUGGESTIONS` to the engine, and one with `num_suggestions=0`
dispatches `topk = 0 < 1`. -/
theorem claim4_counterexample :
    (xlit_api demoEngine "hi" "amma" false 100).2 = [("amma", "hi", 100, false)]
    ∧ ¬((100 : Int) ≤ MAX_SUGGESTIONS)
    ∧ (xlit_api demoEngine "hi" "amma" false 0).2 = [("amma", "hi", 0, false)]
    ∧ ¬((1 : Int) ≤ 0) := by
  refine ⟨by decide, by decide, by decide, by decide⟩

/-- C4 (amended): the requested topK is passed through to the engine exactly
as given, with no clamping at this layer; only the sentence mode of the batch
endpoint forces the suggestion count to 1, and word mode uses the configured
`numSuggestions` (default 5) unmodified. -/
theorem claim4_topk_passthrough (e : Engine) (lc w : String) (tn : Bool) (n : Int)
    (cfg cfg2 : UlcaConfig)
    (hlang : e.all_supported_langs.contains lc = true)
    (hs : cfg.isSentence.getD false = true)
    (hw : cfg2.isSentence.getD false = false) :
    (xlit_api e lc w tn n).2 = [(w.take 70, lc, n, tn)]
    ∧ ulcaNumSuggestions cfg = 1
    ∧ ulcaNumSuggestions cfg2 = cfg2.numSuggestions.getD 5 := by
  have hm : lc ∈ e.all_supported_langs := by simpa using hlang
  refine ⟨?_, by simp [ulcaNumSuggestions, hs], by simp [ulcaNumSuggestions, hw]⟩
  cases hE : e.translit_word (w.take 70) lc n tn <;> simp [xlit_api, hm, hE]

/-- C4 witness. -/
theorem claim4_witness :
    (demoEngine.all_supported_langs.contains "hi" = true)
    ∧ (cfgSentHi.isSentence.getD false = true)
    ∧ (cfgWordHi.isSentence.getD false = false)
    ∧ ((xlit_api demoEngine "hi" "amma" false 100).2
        = [("amma".take 70, "hi", 100, false)]
      ∧ ulcaNumSuggestions cfgSentHi = 1
      ∧ ulcaNumSuggestions cfgWordHi = cfgWordHi.numSuggestions.getD 5) := by
  refine ⟨by decide, by decide, by decide, ?_⟩
  exact claim4_topk_passthrough demoEngine "hi" "amma" false 100 cfgSentHi cfgWordHi
    (by decide) (by decide) (by decide)

/-- C5: on the batch endpoint an engine exception is NOT caught: with an
engine that raises on every call, a valid one-item batch request lets the
exception escape the handler instead of producing a structured error —
refuting "never propagates out of the handler" for that endpoint. -/
theorem claim5_counterexample :
    (ulca_api demoEngineExn demoEngineExn emptyStore
        ⟨some [⟨"x"⟩], some cfgWordHi⟩).1 = UlcaOutcome.raised := by
  decide

/-- C5 (amended): an engine exception is caught and converted to a structured
error (success=false, `internal_err` message, HTTP success) on the word and
reverse endpoints, but on the batch endpoint it escapes the handler as an
unhandled fault. -/
theorem claim5_engine_exception_handling (e1 e2 eA eB : Engine) (lc lc2 w w2 : String)
    (tn : Bool) (n n2 : Int) (store : Store) (item : BatchItem) (rest : List BatchItem)
    (cfg : UlcaConfig)
    (h1 : e1.all_supported_langs.contains lc = true)
    (hx1 : e1.translit_word (w.take 70) lc n tn = .exn)
    (h2 : e2.all_supported_langs.contains lc2 = true)
    (hx2 : e2.translit_word (w2.take 70) lc2 n2 false = .exn)
    (hv : ulcaValidPair eA eB cfg.language.sourceLanguage cfg.language.targetLanguage = true)
    (hten : (cfg.language.targetLanguage == "en") = false)
    (hsent : cfg.isSentence.getD false = false)
    (hget : store.getFails = false)
    (hmiss : store.entries.lookup
        (cacheKey item.source cfg.language.sourceLanguage cfg.language.targetLanguage)
        = none)
    (hx3 : eA.translit_word (item.source.take 32) cfg.language.targetLanguage
        (ulcaNumSuggestions cfg) false = .exn) :
    (xlit_api e1 lc w tn n).1
      = ⟨false, XlitError.internal_err.value, w.trim, none⟩
    ∧ (reverse_xlit_api e2 lc2 w2 n2).1
      = ⟨false, XlitError.internal_err.value, w2.trim, none⟩
    ∧ (ulca_api eA eB store ⟨some (item :: rest), some cfg⟩).1 = .raised := by
  have hm1 : lc ∈ e1.all_supported_langs := by simpa using h1
  have hm2 : lc2 ∈ e2.all_supported_langs := by simpa using h2
  refine ⟨by simp [xlit_api, hm1, hx1], by simp [reverse_xlit_api, hm2, hx2], ?_⟩
  have hp := processItem_word_exn eA cfg.language.sourceLanguage
    cfg.language.targetLanguage cfg.language.targetLanguage (cfg.isSentence.getD false)
    (ulcaNumSuggestions cfg) item store Trace.empty hsent hget hmiss hx3
  have hl := ulcaLoop_cons_none eA _ _ _ _ _ item rest store store Trace.empty _ hp
  rw [ulca_api_toIndic_raised eA eB store store (item :: rest) cfg _ hv hten hl]

/-- C5 witness. -/
theorem claim5_witness :
    (demoEngineExn.all_supported_langs.contains "hi" = true)
    ∧ (demoEngineExn.translit_word ("amma".take 70) "hi" 5 false = .exn)
    ∧ (ulcaValidPair demoEngineExn demoEngineExn "en" "hi" = true)
    ∧ ((xlit_api demoEngineExn "hi" "amma" false 5).1
        = ⟨false, XlitError.internal_err.value, "amma".trim, none⟩
      ∧ (reverse_xlit_api demoEngineExn "hi" "amma" 5).1
        = ⟨false, XlitError.internal_err.value, "amma".trim, none⟩
      ∧ (ulca_api demoEngineExn demoEngineExn emptyStore
          ⟨some [⟨"x"⟩], some cfgWordHi⟩).1 = .raised) := by
  refine ⟨by decide, by decide, by decide, ?_⟩
  exact claim5_engine_exception_handling demoEngineExn demoEngineExn demoEngineExn
    demoEngineExn "hi" "hi" "amma" "amma" false 5 5 emptyStore ⟨"x"⟩ [] cfgWordHi
    (by decide) (by decide) (by decide) (by decide) (by decide) (by decide)
    (by decide) (by decide) (by decide) (by decide)

/-- C6: the single-word endpoint ignores the cache entirely: with the triple
("amma", "en", "hi") present in the cache store, a word-endpoint request for
it still invokes the engine and returns the engine's answer, not the cached
value; and with the engine unavailable the request errors instead of serving
the cached value — refuting the claim for non-batch requests. -/
theorem claim6_counterexample :
    cachedStore.entries.lookup (cacheKey "amma" "en" "hi") = some "X"
    ∧ (xlit_api demoEngine "hi" "amma" false 5).2 = [("amma", "hi", 5, false)]
    ∧ (xlit_api demoEngine "hi" "amma" false 5).1.result = some ["amma1", "amma2"]
    ∧ (some ["amma1", "amma2"] : Option (List String)) ≠ some ["X"]
    ∧ (xlit_api demoEngineExn "hi" "amma" false 5).1.success = false := by
  refine ⟨by decide, by decide, by decide, by decide, by decide⟩

/-- C6 (amended): only the batch endpoint consults the cache.  There, an item
whose triple is cached is answered from the cache with no engine invocation
and no store mutation, identically for ANY engine, mode and suggestion count
(so repeated batch calls keep returning the cached top result even if the
engine has become unavailable); the word endpoint dispatches to the engine on
every valid request, regardless of any cache content. -/
theorem claim6_cache_hit_behavior (E E2 eA eB e3 : Engine) (sL tL lc lc2 lc3 w : String)
    (b b2 tn : Bool) (n n2 n3 : Int) (item : BatchItem) (store store2 : Store)
    (tr : Trace) (v v2 : String) (cfg : UlcaConfig)
    (hget : store.getFails = false)
    (hhit : store.entries.lookup (cacheKey item.source sL tL) = some v)
    (hv : ulcaValidPair eA eB cfg.language.sourceLanguage cfg.language.targetLanguage = true)
    (hget2 : store2.getFails = false)
    (hhit2 : store2.entries.lookup
        (cacheKey item.source cfg.language.sourceLanguage cfg.language.targetLanguage)
        = some v2)
    (h3 : e3.all_supported_langs.contains lc3 = true) :
    (processItem E sL tL lc b n item store tr).1 = some ⟨item.source, [v]⟩
    ∧ (processItem E sL tL lc b n item store tr).2.1 = store
    ∧ (processItem E sL tL lc b n item store tr).2.2.wordCalls = tr.wordCalls
    ∧ (processItem E sL tL lc b n item store tr).2.2.sentCalls = tr.sentCalls
    ∧ processItem E sL tL lc b n item store tr = processItem E2 sL tL lc2 b2 n2 item store tr
    ∧ (ulca_api eA eB store2 ⟨some [item], some cfg⟩).1 = .ok [⟨item.source, [v2]⟩]
    ∧ (xlit_api e3 lc3 w tn n3).2 = [(w.take 70, lc3, n3, tn)] := by
  have hp := processItem_hit E sL tL lc b n item store tr v hget hhit
  have hp2 := processItem_hit E2 sL tL lc2 b2 n2 item store tr v hget hhit
  have hm3 : lc3 ∈ e3.all_supported_langs := by simpa using h3
  refine ⟨by rw [hp], by rw [hp], by rw [hp], by rw [hp], by rw [hp, hp2], ?_, ?_⟩
  · by_cases hten : (cfg.language.targetLanguage == "en") = true
    · rw [ulca_api_toEn_ok eA eB store2 store2 [item] cfg [⟨item.source, [v2]⟩] _ hv hten
        (ulcaLoop_singleton_some eB _ _ _ _ _ item store2 store2 Trace.empty _ _
          (processItem_hit eB _ _ _ _ _ item store2 Trace.empty v2 hget2 hhit2))]
    · rw [ulca_api_toIndic_ok eA eB store2 store2 [item] cfg [⟨item.source, [v2]⟩] _ hv
        (by simpa using hten)
        (ulcaLoop_singleton_some eA _ _ _ _ _ item store2 store2 Trace.empty _ _
          (processItem_hit eA _ _ _ _ _ item store2 Trace.empty v2 hget2 hhit2))]
  · cases hE : e3.translit_word (w.take 70) lc3 n3 tn <;> simp [xlit_api, hm3, hE]

/-- C6 witness. -/
theorem claim6_witness :
    (cachedStore.getFails = false)
    ∧ (cachedStore.entries.lookup (cacheKey "amma" "en" "hi") = some "X")
    ∧ (ulcaValidPair demoEngineExn demoEngineExn "en" "hi" = true)
    ∧ ((processItem demoEngineExn "en" "hi" "hi" false 5 ⟨"amma"⟩ cachedStore
          Trace.empty).1 = some ⟨"amma", ["X"]⟩
      ∧ (ulca_api demoEngineExn demoEngineExn cachedStore
          ⟨some [⟨"amma"⟩], some cfgWordHi⟩).1 = .ok [⟨"amma", ["X"]⟩]) := by
  refine ⟨by decide, by decide, by decide, ?_, ?_⟩
  · exact (claim6_cache_hit_behavior demoEngineExn demoEngineExn demoEngineExn
      demoEngineExn demoEngine "en" "hi" "hi" "hi" "hi" "amma" false false false 5 5 5
      ⟨"amma"⟩ cachedStore cachedStore Trace.empty "X" "X" cfgWordHi
      (by decide) (by decide) (by decide) (by decide) (by decide) (by decide)).1
  · exact (claim6_cache_hit_behavior demoEngineExn demoEngineExn demoEngineExn
      demoEngineExn demoEngine "en" "hi" "hi" "hi" "hi" "amma" false false false 5 5 5
      ⟨"amma"⟩ cachedStore cachedStore Trace.empty "X" "X" cfgWordHi
      (by decide) (by decide) (by decide) (by decide) (by decide)
      (by decide)).2.2.2.2.2.1

/-- C7: a request with an unregistered language code (or pair) is rejected
before any cache or engine access: the word/reverse endpoints return
success=false with the supported-language hint and make no engine call; the
batch endpoint returns the 501 unsupported-language status with an empty
trace of store and engine accesses. -/
theorem claim7_language_validation (e1 e2 eA eB : Engine) (lc lc2 w w2 : String)
    (tn : Bool) (n n2 : Int) (store : Store) (inp : List BatchItem) (cfg : UlcaConfig)
    (h1 : e1.all_supported_langs.contains lc = false)
    (h2 : e2.all_supported_langs.contains lc2 = false)
    (h3 : ulcaValidPair eA eB cfg.language.sourceLanguage cfg.language.targetLanguage
        = false) :
    xlit_api e1 lc w tn n
      = ({ success := false, error := langErrMsg e1.all_supported_langs,
           input := w.trim, result := none }, [])
    ∧ (∃ rest, langErrMsg e1.all_supported_langs
        = "Invalid scheme identifier. Supported languages are: " ++ rest)
    ∧ reverse_xlit_api e2 lc2 w2 n2
      = ({ success := false, error := langErrMsg e2.all_supported_langs,
           input := w2.trim, result := none }, [])
    ∧ ulca_api eA eB store ⟨some inp, some cfg⟩
      = (.clientError 501 "The mentioned language-pair is not supported yet.",
         store, Trace.empty) := by
  have h1' : ¬ (lc ∈ e1.all_supported_langs) := by simpa using h1
  have h2' : ¬ (lc2 ∈ e2.all_supported_langs) := by simpa using h2
  refine ⟨?_, ⟨pyStrSet e1.all_supported_langs, rfl⟩, ?_, ?_⟩
  · simp [xlit_api, h1']
  · simp [reverse_xlit_api, h2']
  · simp [ulca_api, h3]

/-- C7 witness. -/
theorem claim7_witness :
    (demoEngine.all_supported_langs.contains "xx" = false)
    ∧ (ulcaValidPair demoEngine demoEngine "en" "xx" = false)
    ∧ (xlit_api demoEngine "xx" "amma" false 5
        = ({ success := false, error := langErrMsg demoEngine.all_supported_langs,
             input := "amma".trim, result := none }, [])
      ∧ (∃ rest, langErrMsg demoEngine.all_supported_langs
          = "Invalid scheme identifier. Supported languages are: " ++ rest)
      ∧ reverse_xlit_api demoEngine "xx" "amma" 5
        = ({ success := false, error := langErrMsg demoEngine.all_supported_langs,
             input := "amma".trim, result := none }, [])
      ∧ ulca_api demoEngine demoEngine emptyStore
          ⟨some [⟨"a"⟩], some ⟨⟨"en", "xx"⟩, none, none⟩⟩
        = (.clientError 501 "The mentioned language-pair is not supported yet.",
           emptyStore, Trace.empty)) := by
  refine ⟨by decide, by decide, ?_⟩
  exact claim7_language_validation demoEngine demoEngine demoEngine demoEngine
    "xx" "xx" "amma" "amma" false 5 5 emptyStore [⟨"a"⟩] ⟨⟨"en", "xx"⟩, none, none⟩
    (by decide) (by decide) (by decide)

theorem runRequests_cons_fst (limit : Nat) (st st2 : RateLimiterState) (id : String)
    (w : Nat) (rest : List (String × Nat)) (b : Bool)
    (h : rateLimitAllow limit st id w = (b, st2)) :
    (runRequests limit st ((id, w) :: rest)).1
      = b :: (runRequests limit st2 rest).1 := by
  simp [runRequests, h]

/-- C8: the single-item endpoints carry the 5/second fixed-window limit and
the batch endpoint carries none; under the fixed-window limiter, the sixth
request of one client identity within one window is rejected (a distinct
outcome from an allowed request), and requests of one identity never change
another identity's counter. -/
theorem claim8_rate_limit (A B : String) (w w2 : Nat) (st : RateLimiterState)
    (hAB : A ≠ B) :
    xlit_api_rate_limit = some "5/second"
    ∧ reverse_xlit_api_rate_limit = some "5/second"
    ∧ ulca_api_rate_limit = none
    ∧ (runRequests rateLimitPerSecond ⟨[]⟩
        [(A, w), (A, w), (A, w), (A, w), (A, w), (A, w)]).1
      = [true, true, true, true, true, false]
    ∧ (rateLimitAllow rateLimitPerSecond st A w).2.buckets.lookup (B, w2)
      = st.buckets.lookup (B, w2) := by
  have hAA : ((A, w) == (A, w)) = true := by
    show ((A == A) && (w == w)) = true
    simp
  have hBA : ((B, w2) == (A, w)) = false := by
    show ((B == A) && (w2 == w)) = false
    rw [beq_eq_false_iff_ne.mpr (fun h => hAB h.symm)]
    rfl
  refine ⟨rfl, rfl, rfl, ?_, ?_⟩
  · have h0 : rateLimitAllow 5 ⟨[]⟩ A w = (true, ⟨[((A, w), 1)]⟩) := by
      simp [rateLimitAllow]
    have h1 : rateLimitAllow 5 ⟨[((A, w), 1)]⟩ A w
        = (true, ⟨[((A, w), 2), ((A, w), 1)]⟩) := by
      simp [rateLimitAllow, List.lookup_cons, hAA]
    have h2 : rateLimitAllow 5 ⟨[((A, w), 2), ((A, w), 1)]⟩ A w
        = (true, ⟨[((A, w), 3), ((A, w), 2), ((A, w), 1)]⟩) := by
      simp [rateLimitAllow, List.lookup_cons, hAA]
    have h3 : rateLimitAllow 5 ⟨[((A, w), 3), ((A, w), 2), ((A, w), 1)]⟩ A w
        = (true, ⟨[((A, w), 4), ((A, w), 3), ((A, w), 2), ((A, w), 1)]⟩) := by
      simp [rateLimitAllow, List.lookup_cons, hAA]
    have h4 : rateLimitAllow 5
        ⟨[((A, w), 4), ((A, w), 3), ((A, w), 2), ((A, w), 1)]⟩ A w
        = (true, ⟨[((A, w), 5), ((A, w), 4), ((A, w), 3), ((A, w), 2), ((A, w), 1)]⟩) := by
      simp [rateLimitAllow, List.lookup_cons, hAA]
    have h5 : rateLimitAllow 5
        ⟨[((A, w), 5), ((A, w), 4), ((A, w), 3), ((A, w), 2), ((A, w), 1)]⟩ A w
        = (false, ⟨[((A, w), 5), ((A, w), 4), ((A, w), 3), ((A, w), 2), ((A, w), 1)]⟩) := by
      simp [rateLimitAllow, List.lookup_cons, hAA]
    show (runRequests 5 ⟨[]⟩ [(A, w), (A, w), (A, w), (A, w), (A, w), (A, w)]).1
      = [true, true, true, true, true, false]
    rw [runRequests_cons_fst 5 _ _ A w _ _ h0, runRequests_cons_fst 5 _ _ A w _ _ h1,
      runRequests_cons_fst 5 _ _ A w _ _ h2, runRequests_cons_fst 5 _ _ A w _ _ h3,
      runRequests_cons_fst 5 _ _ A w _ _ h4, runRequests_cons_fst 5 _ _ A w _ _ h5]
    rfl
  · unfold rateLimitAllow
    dsimp only
    split
    · simp [List.lookup_cons, hBA]
    · rfl

/-- C8 witness. -/
theorem claim8_witness :
    ("1.2.3.4" ≠ "5.6.7.8")
    ∧ (xlit_api_rate_limit = some "5/second"
      ∧ reverse_xlit_api_rate_limit = some "5/second"
      ∧ ulca_api_rate_limit = none
      ∧ (runRequests rateLimitPerSecond ⟨[]⟩
          [("1.2.3.4", 0), ("1.2.3.4", 0), ("1.2.3.4", 0), ("1.2.3.4", 0),
           ("1.2.3.4", 0), ("1.2.3.4", 0)]).1
        = [true, true, true, true, true, false]
      ∧ (rateLimitAllow rateLimitPerSecond ⟨[]⟩ "1.2.3.4" 0).2.buckets.lookup
          ("5.6.7.8", 0)
        = (⟨[]⟩ : RateLimiterState).buckets.lookup ("5.6.7.8", 0)) := by
  refine ⟨by decide, ?_⟩
  exact claim8_rate_limit "1.2.3.4" "5.6.7.8" 0 0 ⟨[]⟩ (by decide)

/-- C9: the cache key used by the batch loop is the serialization of exactly
(source text, sourceLanguage, targetLanguage) — identical triples give the
same key whatever the mode, engine or suggestion count, and swapping fields
changes the key; cache population writes exactly the single top-ranked value
in either mode, and a value written by a sentence-mode item is served verbatim
(with no engine call) to a later word-mode request with the same triple. -/
theorem claim9_cache_key (E E2 : Engine) (sL tL lc lc2 : String) (b : Bool)
    (n n2 k : Int) (item : BatchItem) (store : Store) (tr tr2 : Trace)
    (s t0 : String) (ts : List String)
    (hget : store.getFails = false) (hset : store.setFails = false)
    (hmiss : store.entries.lookup (cacheKey item.source sL tL) = none)
    (hsent : E.translit_sentence item.source lc = .ok s)
    (hword : E.translit_word (item.source.take 32) lc k false = .ok (t0 :: ts)) :
    (processItem E sL tL lc b n item store tr).2.2.gets
        = tr.gets ++ [cacheKey item.source sL tL]
    ∧ cacheKey "a" "b" "c" ≠ cacheKey "b" "a" "c"
    ∧ (processItem E sL tL lc true n item store tr).2.2.sets
        = tr.sets ++ [(cacheKey item.source sL tL, s)]
    ∧ (processItem E sL tL lc false k item store tr).2.2.sets
        = tr.sets ++ [(cacheKey item.source sL tL, t0)]
    ∧ (processItem E2 sL tL lc2 false n2 item
        (processItem E sL tL lc true n item store tr).2.1 tr2).1
        = some ⟨item.source, [s]⟩
    ∧ (processItem E2 sL tL lc2 false n2 item
        (processItem E sL tL lc true n item store tr).2.1 tr2).2.2.wordCalls
        = tr2.wordCalls := by
  have hps := processItem_sent_ok E sL tL lc true n item store tr s rfl hget hmiss
    hsent hset
  have hpw := processItem_word_ok E sL tL lc false k item store tr t0 ts rfl hget
    hmiss hword hset
  have hlook2 : (⟨store.getFails, store.setFails,
      (cacheKey item.source sL tL, s) :: store.entries⟩ : Store).entries.lookup
        (cacheKey item.source sL tL) = some s := by
    simp [List.lookup]
  have hp2 := processItem_hit E2 sL tL lc2 false n2 item
    ⟨store.getFails, store.setFails, (cacheKey item.source sL tL, s) :: store.entries⟩
    tr2 s hget hlook2
  refine ⟨processItem_gets E sL tL lc b n item store tr, by decide,
    by rw [hps], by rw [hpw], ?_, ?_⟩
  · rw [hps]
    dsimp only
    rw [hp2]
  · rw [hps]
    dsimp only
    rw [hp2]

/-- C9 witness. -/
theorem claim9_witness :
    (emptyStore.getFails = false)
    ∧ (emptyStore.setFails = false)
    ∧ (emptyStore.entries.lookup (cacheKey "amma" "en" "hi") = none)
    ∧ (demoEngine.translit_sentence "amma" "hi" = .ok "ammaS")
    ∧ (demoEngine.translit_word ("amma".take 32) "hi" 5 false
        = .ok ["amma1", "amma2"])
    ∧ ((processItem demoEngine "en" "hi" "hi" false 5 ⟨"amma"⟩ emptyStore
          Trace.empty).2.2.gets
        = Trace.empty.gets ++ [cacheKey "amma" "en" "hi"]
      ∧ cacheKey "a" "b" "c" ≠ cacheKey "b" "a" "c"
      ∧ (processItem demoEngine "en" "hi" "hi" true 5 ⟨"amma"⟩ emptyStore
          Trace.empty).2.2.sets
        = Trace.empty.sets ++ [(cacheKey "amma" "en" "hi", "ammaS")]
      ∧ (processItem demoEngine "en" "hi" "hi" false 5 ⟨"amma"⟩ emptyStore
          Trace.empty).2.2.sets
        = Trace.empty.sets ++ [(cacheKey "amma" "en" "hi", "amma1")]
      ∧ (processItem demoEngine "en" "hi" "hi" false 5 ⟨"amma"⟩
          (processItem demoEngine "en" "hi" "hi" true 5 ⟨"amma"⟩ emptyStore
            Trace.empty).2.1 Trace.empty).1
        = some ⟨"amma", ["ammaS"]⟩
      ∧ (processItem demoEngine "en" "hi" "hi" false 5 ⟨"amma"⟩
          (processItem demoEngine "en" "hi" "hi" true 5 ⟨"amma"⟩ emptyStore
            Trace.empty).2.1 Trace.empty).2.2.wordCalls
        = Trace.empty.wordCalls) := by
  refine ⟨by decide, by decide, by decide, by decide, by decide, ?_⟩
  exact claim9_cache_key demoEngine demoEngine "en" "hi" "hi" "hi" false 5 5 5
    ⟨"amma"⟩ emptyStore Trace.empty Trace.empty "ammaS" "amma1" ["amma2"]
    (by decide) (by decide) (by decide) (by decide) (by decide)

/-- C10: in batch word mode with numSuggestions k > 1, only the first
(cache-miss) call for a triple can return up to k candidates; a subsequent
call with the same triple (any engines, any configured suggestion count) hits
the cache and returns exactly one candidate, the cached top one. -/
theorem claim10_cached_singleton (eA eB eC eD : Engine) (store : Store)
    (item : BatchItem) (cfg cfg2 : UlcaConfig) (t0 : String) (ts : List String)
    (hv : ulcaValidPair eA eB cfg.language.sourceLanguage cfg.language.targetLanguage = true)
    (hten : (cfg.language.targetLanguage == "en") = false)
    (hws : cfg.isSentence.getD false = false)
    (hk : 1 < ulcaNumSuggestions cfg)
    (hget : store.getFails = false) (hset : store.setFails = false)
    (hmiss : store.entries.lookup (cacheKey item.source cfg.language.sourceLanguage
        cfg.language.targetLanguage) = none)
    (hword : eA.translit_word (item.source.take 32) cfg.language.targetLanguage
        (ulcaNumSuggestions cfg) false = .ok (t0 :: ts))
    (hlen : (t0 :: ts).length ≤ (ulcaNumSuggestions cfg).toNat)
    (hv2 : ulcaValidPair eC eD cfg2.language.sourceLanguage cfg2.language.targetLanguage = true)
    (hcfg2 : cfg2.language = cfg.language) :
    (ulca_api eA eB store ⟨some [item], some cfg⟩).1
      = .ok [⟨item.source.take 32, t0 :: ts⟩]
    ∧ 1 < ulcaNumSuggestions cfg
    ∧ (t0 :: ts).length ≤ (ulcaNumSuggestions cfg).toNat
    ∧ (ulca_api eC eD (ulca_api eA eB store ⟨some [item], some cfg⟩).2.1
        ⟨some [item], some cfg2⟩).1
      = .ok [⟨item.source, [t0]⟩] := by
  have hp := processItem_word_ok eA cfg.language.sourceLanguage
    cfg.language.targetLanguage cfg.language.targetLanguage (cfg.isSentence.getD false)
    (ulcaNumSuggestions cfg) item store Trace.empty t0 ts hws hget hmiss hword hset
  have hl := ulcaLoop_singleton_some eA _ _ _ _ _ item store _ Trace.empty _ _ hp
  have hfull := ulca_api_toIndic_ok eA eB store _ [item] cfg _ _ hv hten hl
  have hget2 : (⟨store.getFails, store.setFails,
      (cacheKey item.source cfg.language.sourceLanguage cfg.language.targetLanguage, t0)
        :: store.entries⟩ : Store).getFails = false := hget
  have hlook2 : (⟨store.getFails, store.setFails,
      (cacheKey item.source cfg.language.sourceLanguage cfg.language.targetLanguage, t0)
        :: store.entries⟩ : Store).entries.lookup
        (cacheKey item.source cfg2.language.sourceLanguage cfg2.language.targetLanguage)
      = some t0 := by
    rw [hcfg2]
    simp [List.lookup]
  refine ⟨by rw [hfull], hk, hlen, ?_⟩
  rw [hfull]
  dsimp only
  by_cases hten2 : (cfg2.language.targetLanguage == "en") = true
  · rw [ulca_api_toEn_ok eC eD _ _ [item] cfg2 [⟨item.source, [t0]⟩] _ hv2 hten2
      (ulcaLoop_singleton_some eD _ _ _ _ _ item _ _ Trace.empty _ _
        (processItem_hit eD _ _ _ _ _ item _ Trace.empty t0 hget2 hlook2))]
  · rw [ulca_api_toIndic_ok eC eD _ _ [item] cfg2 [⟨item.source, [t0]⟩] _ hv2
      (by simpa using hten2)
      (ulcaLoop_singleton_some eC _ _ _ _ _ item _ _ Trace.empty _ _
        (processItem_hit eC _ _ _ _ _ item _ Trace.empty t0 hget2 hlook2))]

/-- C10 witness. -/
theorem claim10_witness :
    (ulcaValidPair demoEngine demoEngine "en" "hi" = true)
    ∧ (("hi" == "en") = false)
    ∧ (cfgWord3Hi.isSentence.getD false = false)
    ∧ (1 < ulcaNumSuggestions cfgWord3Hi)
    ∧ (demoEngine.translit_word ("amma".take 32) "hi" (ulcaNumSuggestions cfgWord3Hi)
        false = .ok ["amma1", "amma2"])
    ∧ ((["amma1", "amma2"] : List String).length ≤ (ulcaNumSuggestions cfgWord3Hi).toNat)
    ∧ (cfgWordHi.language = cfgWord3Hi.language)
    ∧ ((ulca_api demoEngine demoEngine emptyStore ⟨some [⟨"amma"⟩], some cfgWord3Hi⟩).1
        = .ok [⟨"amma".take 32, ["amma1", "amma2"]⟩]
      ∧ 1 < ulcaNumSuggestions cfgWord3Hi
      ∧ (["amma1", "amma2"] : List String).length ≤ (ulcaNumSuggestions cfgWord3Hi).toNat
      ∧ (ulca_api demoEngine demoEngine
          (ulca_api demoEngine demoEngine emptyStore
            ⟨some [⟨"amma"⟩], some cfgWord3Hi⟩).2.1
          ⟨some [⟨"amma"⟩], some cfgWordHi⟩).1
        = .ok [⟨"amma", ["amma1"]⟩]) := by
  refine ⟨by decide, by decide, by decide, by decide, by decide, by decide,
    by decide, ?_⟩
  have h := claim10_cached_singleton demoEngine demoEngine demoEngine demoEngine
    emptyStore ⟨"amma"⟩ cfgWord3Hi cfgWordHi "amma1" ["amma2"]
    (by decide) (by decide) (by decide) (by decide) (by decide) (by decide)
    (by decide) (by decide) (by decide) (by decide) (by decide)
  exact h

end XlitServer
